import Mathlib

/-!
# GORM OpenTelemetry plugin: the before/after span hooks

A shallow embedding of `src/plugin.go`.

The plugin is glue between two external libraries, the ORM (gorm) and the
tracing API (OpenTelemetry).  The embedding keeps the plugin's own control
flow (`startSpan`, `before`, `after`, `Initialize`) as it is written and
models the collaborators as follows.

* Every observable call into a collaborator (a clock read, `Tracer.Start`,
  `Span.SetAttributes`, `Span.RecordError`, `Span.End`) is appended to an
  event log, the state that is threaded through the hooks.
* What a collaborator returns is taken from an environment `Env`: the
  dialect's `Explain`, the `%v` rendering of the bound values, the tracer
  and the clock.  The tracer and the clock may depend on the whole history.
* The operation context `*gorm.DB` is a record that the hooks receive and
  return (explicit state passing for the pointer receiver).
* The callback registry is a record of the registrations attempted, with the
  result of each `Register` call taken from an arbitrary outcome function.
-/

namespace GormOtel

/-! ## Data model -/

/-- Go `error` values that are not nil, identified by their message. -/
abbrev Err := String

/-- Instants of `time.Time`. -/
abbrev Time := Nat

/-- A `trace.Span` handle (never the nil interface: `Tracer.Start` returns a span). -/
structure Span where
  id : Nat
  deriving DecidableEq, Repr

/-- Values of Go type `interface{}`: the bound parameters of a statement and
the contents of the side-channel store.  Only `span` passes the type assertion
`v.(trace.Span)`. -/
inductive Value where
  | nil
  | bool (b : Bool)
  | int (i : Int)
  | str (s : String)
  | span (s : Span)
  deriving DecidableEq, Repr

/-- Type assertion `span, ok := v.(trace.Span)` in its comma-ok form. -/
def Value.asSpan : Value → Option Span
  | .span s => some s
  | _ => none

/-- A `context.Context`: the background context or a context derived from a
parent by attaching a value. -/
inductive Context where
  | background
  | withValue (parent : Context) (key : String) (val : Value)
  deriving DecidableEq, Repr

/-- The span kinds of `trace.SpanKind`. -/
inductive SpanKind where
  | unspecified
  | internal
  | server
  | client
  | producer
  | consumer
  deriving DecidableEq, Repr

/-- An `attribute.KeyValue` built by `attribute.Key(k).String(v)`. -/
structure KeyValue where
  key : String
  value : String
  deriving DecidableEq, Repr

/-- The options of package `trace` that can be passed to `Start`,
`RecordError` and `End`. -/
inductive TraceOption where
  | withSpanKind (k : SpanKind)
  | withTimestamp (t : Time)
  | withStackTrace (b : Bool)
  | withAttributes (kvs : List KeyValue)
  deriving DecidableEq, Repr

/-- One observable call into the clock or the tracing API, with its arguments
(and, for `Start`, its results). -/
inductive Event where
  | now (t : Time)
  | start (parent : Context) (name : String) (opts : List TraceOption)
      (ctx : Context) (span : Span)
  | setAttributes (span : Span) (kvs : List KeyValue)
  | recordError (span : Span) (err : Err) (opts : List TraceOption)
  | spanEnd (span : Span) (opts : List TraceOption)
  deriving DecidableEq, Repr

/-- The external collaborators whose results the hooks consume. -/
structure Env where
  /-- The dialect rendering `db.Dialector.Explain(sql, vars...)`. -/
  Explain : String → List Value → String
  /-- The rendering `fmt.Sprintf("%v", vars)` of the bound values. -/
  sprintV : List Value → String
  /-- The call `p.tracer.Start(ctx, name, opts...)`, given the history. -/
  tracerStart : List Event → Context → String → List TraceOption → Context × Span
  /-- The call `time.Now()`, given the history. -/
  timeNow : List Event → Time

/-- The part of `gorm.Statement` the hooks touch.  `Settings` is the
`sync.Map` behind `InstanceSet` and `InstanceGet`. -/
structure Statement where
  SQL : String
  Vars : List Value
  Context : GormOtel.Context
  Settings : List (String × Value)
  deriving DecidableEq, Repr

/-- The operation context `*gorm.DB` as a callback receives it. -/
structure DB where
  Statement : GormOtel.Statement
  Error : Option Err
  deriving DecidableEq, Repr

/-! ## The ORM operations the hooks call -/

/-- The method `Store` of the settings map: the binding of `key` is replaced. -/
def store (m : List (String × Value)) (key : String) (v : Value) : List (String × Value) :=
  (key, v) :: m.filter (fun kv => kv.1 != key)

/-- The method `Load` of the settings map. -/
def load (m : List (String × Value)) (key : String) : Option Value :=
  m.lookup key

/-- The method `db.InstanceSet(key, value)`.  Inside a callback gorm hands out the
statement's own instance, which `InstanceSet` updates in place.  gorm prefixes
the key with the address of the statement, a constant for one operation
context, which is left out here. -/
def DB.InstanceSet (db : DB) (key : String) (v : Value) : DB :=
  { db with Statement := { db.Statement with Settings := store db.Statement.Settings key v } }

/-- The method `db.InstanceGet(key)`: the stored value, or `none` when the map has
no entry (the second result `false`). -/
def DB.InstanceGet (db : DB) (key : String) : Option Value :=
  load db.Statement.Settings key

/-- The method `WithContext` reached through `db.Statement`.  `gorm.Statement` embeds
`*DB` and has no method of that name itself, so the call is
`(*DB).WithContext`, which is `db.Session(&Session{Context: ctx})`: it builds a
NEW handle over a clone of the statement and sets the context on the clone.  The
receiver is not modified; the new handle is the result. -/
def DB.WithContext (db : DB) (ctx : Context) : DB :=
  { db with Statement := { db.Statement with Context := ctx } }

/-! ## The plugin -/

def gormSpanKey : String := "gorm_tracer:span"

def callBackBeforeName : String := "gorm_tracer:before"

def callBackAfterName : String := "gorm_tracer:after"

/-- The call `fmt.Sprintf("%s", s)` on a string. -/
def sprintS (s : String) : String := s

/-- The options `startSpan` passes to `Tracer.Start`. -/
def startOpts : List TraceOption := [TraceOption.withSpanKind SpanKind.client]

/-- The method `startSpan`: one `Tracer.Start` call under the statement's context,
named by the explained SQL, of client kind. -/
def startSpan (env : Env) (db : DB) (log : List Event) : (Context × Span) × List Event :=
  let operation := sprintS (env.Explain db.Statement.SQL db.Statement.Vars)
  let r := env.tracerStart log db.Statement.Context operation startOpts
  (r, log ++ [Event.start db.Statement.Context operation startOpts r.1 r.2])

/-- The hook `before`: start a span, store it in the side-channel slot, call
`db.Statement.WithContext(ctx)` and drop its result, as the source does. -/
def before (env : Env) (db : DB) (log : List Event) : DB × List Event :=
  let r := startSpan env db log
  let ctx := r.1.1
  let span := r.1.2
  let db1 := db.InstanceSet gormSpanKey (Value.span span)
  let _unused := db1.WithContext ctx
  (db1, r.2)

/-- The local slice `attrs` as it stands at the end of `after`. -/
def afterAttrs (env : Env) (db : DB) : List KeyValue :=
  let attrs : List KeyValue := []
  let attrs := attrs ++ [KeyValue.mk "args" (env.sprintV db.Statement.Vars)]
  let attrs := attrs ++ [KeyValue.mk "sql" (env.Explain db.Statement.SQL db.Statement.Vars)]
  let attrs := attrs ++ [KeyValue.mk "go.orm" "gorm"]
  attrs

/-- The options of the deferred `span.End` call. -/
def endOpts (tn : Time) : List TraceOption :=
  [TraceOption.withStackTrace true, TraceOption.withTimestamp tn]

/-- The hook `after`.  The clock is read first; the two early returns precede the
`defer`; past them the slice `attrs` is built (and used by no call), the error
is recorded when there is one, and the deferred `End` runs last. -/
def after (env : Env) (db : DB) (log : List Event) : DB × List Event :=
  let tn := env.timeNow log
  let log0 := log ++ [Event.now tn]
  match db.InstanceGet gormSpanKey with
  | none => (db, log0)
  | some _span =>
    match _span.asSpan with
    | none => (db, log0)
    | some span =>
      let _attrs := afterAttrs env db
      let log1 :=
        match db.Error with
        | some err => log0 ++ [Event.recordError span err [TraceOption.withTimestamp tn]]
        | none => log0
      (db, log1 ++ [Event.spanEnd span (endOpts tn)])

/-- A number of consecutive `after` calls on the same operation context. -/
def afterN (env : Env) : Nat → DB → List Event → DB × List Event
  | 0, db, log => (db, log)
  | n + 1, db, log =>
    let r := after env db log
    afterN env n r.1 r.2

/-! ## Registration -/

/-- The six callback pipelines of `db.Callback()`. -/
inductive Kind where
  | create
  | query
  | update
  | delete
  | row
  | raw
  deriving DecidableEq, Repr

/-- Whether a callback is placed `Before(stage)` or `After(stage)`. -/
inductive Position where
  | before
  | after
  deriving DecidableEq, Repr

/-- The function registered: `p.before` or `p.after`. -/
inductive Handler where
  | before
  | after
  deriving DecidableEq, Repr

/-- One call `db.Callback().K().Pos(stage).Register(name, fn)`. -/
structure Registration where
  kind : Kind
  position : Position
  stage : String
  name : String
  handler : Handler
  deriving DecidableEq, Repr

/-- The callback registry of a database handle, as far as the plugin can affect
it: the `Register` calls made on it so far, in order. -/
structure Callbacks where
  attempts : List Registration
  deriving DecidableEq, Repr

/-- The method `Register`: the call is recorded and its result (nil, or an error
such as gorm reports for a registration it rejects) is whatever the registry
decides, given the calls made before. -/
def Register (outcome : List Registration → Registration → Option Err)
    (cb : Callbacks) (r : Registration) : Callbacks × Option Err :=
  (Callbacks.mk (cb.attempts ++ [r]), outcome cb.attempts r)

/-- The method `Name`. -/
def Name : String := "GORM-OpenTelemetry-Plugin"

/-- The method `Initialize`: twelve `Register` calls whose results are assigned to
the blank identifier, then a bare `return` of the named result `err`, which
is never assigned. -/
def Initialize (outcome : List Registration → Registration → Option Err)
    (cb : Callbacks) : Callbacks × Option Err :=
  let err : Option Err := none
  let cb := (Register outcome cb
    (Registration.mk Kind.create Position.before "gorm:before_create" callBackBeforeName Handler.before)).1
  let cb := (Register outcome cb
    (Registration.mk Kind.query Position.before "gorm:query" callBackBeforeName Handler.before)).1
  let cb := (Register outcome cb
    (Registration.mk Kind.delete Position.before "gorm:before_delete" callBackBeforeName Handler.before)).1
  let cb := (Register outcome cb
    (Registration.mk Kind.update Position.before "gorm:setup_reflect_value" callBackBeforeName Handler.before)).1
  let cb := (Register outcome cb
    (Registration.mk Kind.row Position.before "gorm:row" callBackBeforeName Handler.before)).1
  let cb := (Register outcome cb
    (Registration.mk Kind.raw Position.before "gorm:raw" callBackBeforeName Handler.before)).1
  let cb := (Register outcome cb
    (Registration.mk Kind.create Position.after "gorm:after_create" callBackAfterName Handler.after)).1
  let cb := (Register outcome cb
    (Registration.mk Kind.query Position.after "gorm:after_query" callBackAfterName Handler.after)).1
  let cb := (Register outcome cb
    (Registration.mk Kind.delete Position.after "gorm:after_delete" callBackAfterName Handler.after)).1
  let cb := (Register outcome cb
    (Registration.mk Kind.update Position.after "gorm:after_update" callBackAfterName Handler.after)).1
  let cb := (Register outcome cb
    (Registration.mk Kind.row Position.after "gorm:row" callBackAfterName Handler.after)).1
  let cb := (Register outcome cb
    (Registration.mk Kind.raw Position.after "gorm:raw" callBackAfterName Handler.after)).1
  (cb, err)

/-- The registrations of a list that put `h` on the pipeline of kind `k`. -/
def registrationsOf (k : Kind) (h : Handler) (rs : List Registration) : List Registration :=
  rs.filter (fun r => decide (r.kind = k ∧ r.handler = h))

/-- The six kinds. -/
def allKinds : List Kind :=
  [Kind.create, Kind.query, Kind.update, Kind.delete, Kind.row, Kind.raw]

/-! ## Observations on the event log -/

/-- The spans returned by the `Tracer.Start` calls of a log, in order. -/
def startCalls : List Event → List Span
  | [] => []
  | Event.start _ _ _ _ s :: es => s :: startCalls es
  | _ :: es => startCalls es

/-- The spans on which `End` was called, in order. -/
def endCalls : List Event → List Span
  | [] => []
  | Event.spanEnd s _ :: es => s :: endCalls es
  | _ :: es => endCalls es

/-- The `RecordError` calls of a log: the span and the error passed. -/
def recordErrorCalls : List Event → List (Span × Err)
  | [] => []
  | Event.recordError s e _ :: es => (s, e) :: recordErrorCalls es
  | _ :: es => recordErrorCalls es

/-- The instants returned by the clock reads of a log. -/
def clockReads : List Event → List Time
  | [] => []
  | Event.now t :: es => t :: clockReads es
  | _ :: es => clockReads es

/-- Whether an event is an operation on a span (as opposed to a clock read or
the creation of a span). -/
def Event.isSpanOp : Event → Bool
  | .setAttributes _ _ => true
  | .recordError _ _ _ => true
  | .spanEnd _ _ => true
  | _ => false

/-- The operations on spans of a log. -/
def spanOps (log : List Event) : List Event :=
  log.filter Event.isSpanOp

/-- The attributes carried by the options of a call. -/
def optAttributes : List TraceOption → List KeyValue
  | [] => []
  | TraceOption.withAttributes kvs :: os => kvs ++ optAttributes os
  | _ :: os => optAttributes os

/-- The attributes a span carries: those given when it was started and those set
on it by `SetAttributes`. -/
def attributesOf (s : Span) : List Event → List KeyValue
  | [] => []
  | Event.start _ _ opts _ s1 :: es =>
    (if s1 = s then optAttributes opts else []) ++ attributesOf s es
  | Event.setAttributes s1 kvs :: es =>
    (if s1 = s then kvs else []) ++ attributesOf s es
  | _ :: es => attributesOf s es

/-- The events one `after` call appends when the slot holds span `s` and the
error field is `err`: the clock read, the `RecordError` call if any, the `End`
call. -/
def closing (env : Env) (err : Option Err) (s : Span) (log : List Event) : List Event :=
  Event.now (env.timeNow log) ::
    ((match err with
      | some e => [Event.recordError s e [TraceOption.withTimestamp (env.timeNow log)]]
      | none => []) ++
    [Event.spanEnd s (endOpts (env.timeNow log))])

/-- The registrations one `Initialize` call issues on a registry: what it adds to
the calls made before. -/
def issued (outcome : List Registration → Registration → Option Err)
    (cb : Callbacks) : List Registration :=
  (Initialize outcome cb).1.attempts.drop cb.attempts.length

/-! ## A sample environment and sample operation contexts -/

/-- A sample rendering of one bound value. -/
def renderValue : Value → String
  | .nil => "NULL"
  | .bool true => "true"
  | .bool false => "false"
  | .int i => toString i
  | .str s => "\"" ++ s ++ "\""
  | .span _ => "<span>"

/-- A sample dialect rendering on characters: every placeholder `?` is replaced
by the next bound value. -/
def explainChars : List Char → List Value → List Char
  | [], _ => []
  | c :: cs, [] => c :: explainChars cs []
  | c :: cs, v :: vs =>
    if c = '?' then (renderValue v).toList ++ explainChars cs vs
    else c :: explainChars cs (v :: vs)

/-- A sample environment: a placeholder-substituting dialect, a tracer that
numbers its spans and derives the span's context from the parent, and a clock
that advances with every event. -/
def sampleEnv : Env where
  Explain := fun sql vars => String.mk (explainChars sql.toList vars)
  sprintV := fun vars => "[" ++ " ".intercalate (vars.map renderValue) ++ "]"
  tracerStart := fun log ctx _ _ =>
    (Context.withValue ctx "otel:span" (Value.span (Span.mk (startCalls log).length)),
      Span.mk (startCalls log).length)
  timeNow := fun log => 1000 + log.length

/-- A successful parameterised query, not yet traced. -/
def sampleQuery : DB :=
  DB.mk (Statement.mk "SELECT * FROM users WHERE id = ?" [Value.int 42] Context.background []) none

/-- A failed query, not yet traced. -/
def sampleFailed : DB :=
  DB.mk (Statement.mk "SELECT * FROM missing" [] Context.background []) (some "no such table: missing")

/-- An operation context whose slot holds a value that is not a span. -/
def sampleForeign : DB :=
  DB.mk (Statement.mk "DELETE FROM users WHERE id = ?" [Value.int 7] Context.background
    [(gormSpanKey, Value.str "not a span")]) (some "boom")

/-- An operation context whose slot holds span 5 and whose execution failed. -/
def sampleTraced : DB :=
  DB.mk (Statement.mk "UPDATE users SET name = ?" [Value.str "bob"] Context.background
    [(gormSpanKey, Value.span (Span.mk 5))]) (some "constraint failed")

/-- A registry that accepts every registration. -/
def acceptAll : List Registration → Registration → Option Err :=
  fun _ _ => none

/-- A registry that rejects every registration. -/
def rejectAll : List Registration → Registration → Option Err :=
  fun _ r => some ("rejected: " ++ r.name)

/-! ## Lemmas on the event log and the store -/

theorem startCalls_append (a b : List Event) :
    startCalls (a ++ b) = startCalls a ++ startCalls b := by
  induction a with
  | nil => rfl
  | cons e es ih => cases e <;> simp [startCalls, ih]

theorem endCalls_append (a b : List Event) :
    endCalls (a ++ b) = endCalls a ++ endCalls b := by
  induction a with
  | nil => rfl
  | cons e es ih => cases e <;> simp [endCalls, ih]

theorem recordErrorCalls_append (a b : List Event) :
    recordErrorCalls (a ++ b) = recordErrorCalls a ++ recordErrorCalls b := by
  induction a with
  | nil => rfl
  | cons e es ih => cases e <;> simp [recordErrorCalls, ih]

theorem clockReads_append (a b : List Event) :
    clockReads (a ++ b) = clockReads a ++ clockReads b := by
  induction a with
  | nil => rfl
  | cons e es ih => cases e <;> simp [clockReads, ih]

theorem attributesOf_append (s : Span) (a b : List Event) :
    attributesOf s (a ++ b) = attributesOf s a ++ attributesOf s b := by
  induction a with
  | nil => rfl
  | cons e es ih => cases e <;> simp [attributesOf, ih]

theorem spanOps_append (a b : List Event) :
    spanOps (a ++ b) = spanOps a ++ spanOps b := by
  simp [spanOps]

theorem load_store (m : List (String × Value)) (key : String) (v : Value) :
    load (store m key v) key = some v := by
  simp [load, store, List.lookup]

theorem instanceGet_instanceSet (db : DB) (key : String) (v : Value) :
    (db.InstanceSet key v).InstanceGet key = some v := by
  simp [DB.InstanceGet, DB.InstanceSet, load_store]

theorem before_eq (env : Env) (db : DB) (log : List Event) :
    before env db log =
      (db.InstanceSet gormSpanKey (Value.span (startSpan env db log).1.2),
        log ++ [Event.start db.Statement.Context
          (env.Explain db.Statement.SQL db.Statement.Vars) startOpts
          (startSpan env db log).1.1 (startSpan env db log).1.2]) := by
  rfl

theorem after_of_span (env : Env) (db : DB) (log : List Event) (s : Span)
    (h : db.InstanceGet gormSpanKey = some (Value.span s)) :
    after env db log = (db, log ++ closing env db.Error s log) := by
  unfold after closing
  rw [h]
  cases db.Error <;> simp [Value.asSpan]

theorem after_of_absent (env : Env) (db : DB) (log : List Event)
    (h : db.InstanceGet gormSpanKey = none) :
    after env db log = (db, log ++ [Event.now (env.timeNow log)]) := by
  unfold after
  rw [h]

theorem after_of_foreign (env : Env) (db : DB) (log : List Event) (v : Value)
    (h : db.InstanceGet gormSpanKey = some v) (hv : v.asSpan = none) :
    after env db log = (db, log ++ [Event.now (env.timeNow log)]) := by
  unfold after
  rw [h]
  simp [hv]

theorem endCalls_closing (env : Env) (err : Option Err) (s : Span) (log : List Event) :
    endCalls (closing env err s log) = [s] := by
  cases err <;> simp [closing, endCalls]

theorem startCalls_closing (env : Env) (err : Option Err) (s : Span) (log : List Event) :
    startCalls (closing env err s log) = [] := by
  cases err <;> simp [closing, startCalls]

theorem afterN_of_span (env : Env) (s : Span) (n : Nat) (db : DB) (log : List Event)
    (h : db.InstanceGet gormSpanKey = some (Value.span s)) :
    (afterN env n db log).1 = db ∧
      endCalls (afterN env n db log).2 = endCalls log ++ List.replicate n s := by
  induction n generalizing log with
  | zero => simp [afterN]
  | succ n ih =>
    have hstep := after_of_span env db log s h
    simp only [afterN, hstep]
    refine ⟨(ih _).1, ?_⟩
    rw [(ih _).2, endCalls_append, endCalls_closing, List.append_assoc]
    simp [List.replicate_succ]

theorem recordErrorCalls_closing (env : Env) (err : Option Err) (s : Span)
    (log : List Event) :
    recordErrorCalls (closing env err s log) =
      (match err with
       | some e => [(s, e)]
       | none => []) := by
  cases err <;> simp [closing, recordErrorCalls]

theorem clockReads_closing (env : Env) (err : Option Err) (s : Span) (log : List Event) :
    clockReads (closing env err s log) = [env.timeNow log] := by
  cases err <;> simp [closing, clockReads]

theorem spanOps_closing (env : Env) (err : Option Err) (s : Span) (log : List Event) :
    spanOps (closing env err s log) =
      (match err with
       | some e => [Event.recordError s e [TraceOption.withTimestamp (env.timeNow log)]]
       | none => []) ++ [Event.spanEnd s (endOpts (env.timeNow log))] := by
  cases err <;> simp [closing, spanOps, Event.isSpanOp]

theorem attributesOf_closing (env : Env) (err : Option Err) (s t : Span)
    (log : List Event) :
    attributesOf t (closing env err s log) = [] := by
  cases err <;> simp [closing, attributesOf]

theorem before_error (env : Env) (db : DB) (log : List Event) :
    (before env db log).1.Error = db.Error := by
  rfl

theorem before_context (env : Env) (db : DB) (log : List Event) :
    (before env db log).1.Statement.Context = db.Statement.Context := by
  rfl

theorem before_slot (env : Env) (db : DB) (log : List Event) :
    (before env db log).1.InstanceGet gormSpanKey =
      some (Value.span (startSpan env db log).1.2) := by
  rw [before_eq]
  exact instanceGet_instanceSet db gormSpanKey _

theorem after_before (env : Env) (db : DB) (log : List Event) :
    after env (before env db log).1 (before env db log).2 =
      ((before env db log).1,
        (before env db log).2 ++
          closing env db.Error (startSpan env db log).1.2 (before env db log).2) := by
  rw [after_of_span env _ _ _ (before_slot env db log), before_error]

theorem initialize_attempts (outcome : List Registration → Registration → Option Err)
    (cb : Callbacks) :
    (Initialize outcome cb).1.attempts = cb.attempts ++
      [Registration.mk Kind.create Position.before "gorm:before_create" "gorm_tracer:before" Handler.before,
       Registration.mk Kind.query Position.before "gorm:query" "gorm_tracer:before" Handler.before,
       Registration.mk Kind.delete Position.before "gorm:before_delete" "gorm_tracer:before" Handler.before,
       Registration.mk Kind.update Position.before "gorm:setup_reflect_value" "gorm_tracer:before" Handler.before,
       Registration.mk Kind.row Position.before "gorm:row" "gorm_tracer:before" Handler.before,
       Registration.mk Kind.raw Position.before "gorm:raw" "gorm_tracer:before" Handler.before,
       Registration.mk Kind.create Position.after "gorm:after_create" "gorm_tracer:after" Handler.after,
       Registration.mk Kind.query Position.after "gorm:after_query" "gorm_tracer:after" Handler.after,
       Registration.mk Kind.delete Position.after "gorm:after_delete" "gorm_tracer:after" Handler.after,
       Registration.mk Kind.update Position.after "gorm:after_update" "gorm_tracer:after" Handler.after,
       Registration.mk Kind.row Position.after "gorm:row" "gorm_tracer:after" Handler.after,
       Registration.mk Kind.raw Position.after "gorm:raw" "gorm_tracer:after" Handler.after] := by
  simp [Initialize, Register, callBackBeforeName, callBackAfterName]

theorem issued_eq (outcome : List Registration → Registration → Option Err)
    (cb : Callbacks) :
    issued outcome cb =
      [Registration.mk Kind.create Position.before "gorm:before_create" "gorm_tracer:before" Handler.before,
       Registration.mk Kind.query Position.before "gorm:query" "gorm_tracer:before" Handler.before,
       Registration.mk Kind.delete Position.before "gorm:before_delete" "gorm_tracer:before" Handler.before,
       Registration.mk Kind.update Position.before "gorm:setup_reflect_value" "gorm_tracer:before" Handler.before,
       Registration.mk Kind.row Position.before "gorm:row" "gorm_tracer:before" Handler.before,
       Registration.mk Kind.raw Position.before "gorm:raw" "gorm_tracer:before" Handler.before,
       Registration.mk Kind.create Position.after "gorm:after_create" "gorm_tracer:after" Handler.after,
       Registration.mk Kind.query Position.after "gorm:after_query" "gorm_tracer:after" Handler.after,
       Registration.mk Kind.delete Position.after "gorm:after_delete" "gorm_tracer:after" Handler.after,
       Registration.mk Kind.update Position.after "gorm:after_update" "gorm_tracer:after" Handler.after,
       Registration.mk Kind.row Position.after "gorm:row" "gorm_tracer:after" Handler.after,
       Registration.mk Kind.raw Position.after "gorm:raw" "gorm_tracer:after" Handler.after] := by
  unfold issued
  rw [initialize_attempts]
  exact List.drop_left _ _

theorem after_attributes (env : Env) (db : DB) (log : List Event) (t : Span) :
    attributesOf t (after env db log).2 = attributesOf t log := by
  unfold after
  cases db.InstanceGet gormSpanKey with
  | none => simp [attributesOf_append, attributesOf]
  | some v =>
    cases v <;> cases db.Error <;>
      simp [Value.asSpan, attributesOf_append, attributesOf]

/-! ## The claims -/

/-- Claim C1.  Running `before` and then `after` on the same operation context,
whatever its SQL text, bound values and error field, adds exactly one
`Tracer.Start` call and exactly one `End` call to the history, and the span
ended is the span that `before` started. -/
theorem before_after_one_span_one_end (env : Env) (db : DB) (log : List Event) :
    startCalls (after env (before env db log).1 (before env db log).2).2 =
        startCalls log ++ [(startSpan env db log).1.2] ∧
      endCalls (after env (before env db log).1 (before env db log).2).2 =
        endCalls log ++ [(startSpan env db log).1.2] ∧
      (startSpan env db log).1 =
        env.tracerStart log db.Statement.Context
          (env.Explain db.Statement.SQL db.Statement.Vars) startOpts := by
  refine ⟨?_, ?_, rfl⟩
  · rw [after_before, startCalls_append, startCalls_closing, before_eq, startCalls_append]
    simp [startCalls]
  · rw [after_before, endCalls_append, endCalls_closing, before_eq, endCalls_append]
    simp [endCalls]

/-- Claim C2.  When the slot under `gorm_tracer:span` is absent, or holds a value
that is not a span, `after` performs no span operation (no `End`, no
`RecordError`, nothing else on a span): it only reads the clock, and it returns
the operation context exactly as it received it, error field included. -/
theorem after_without_span_is_noop (env : Env) (db : DB) (log : List Event)
    (h : db.InstanceGet gormSpanKey = none ∨
      ∃ v, db.InstanceGet gormSpanKey = some v ∧ v.asSpan = none) :
    (after env db log).1 = db ∧
      (after env db log).2 = log ++ [Event.now (env.timeNow log)] ∧
      spanOps (after env db log).2 = spanOps log ∧
      endCalls (after env db log).2 = endCalls log ∧
      recordErrorCalls (after env db log).2 = recordErrorCalls log := by
  have key : after env db log = (db, log ++ [Event.now (env.timeNow log)]) := by
    rcases h with h | ⟨v, h, hv⟩
    · exact after_of_absent env db log h
    · exact after_of_foreign env db log v h hv
  rw [key]
  simp [spanOps_append, endCalls_append, recordErrorCalls_append, spanOps, endCalls,
    recordErrorCalls, Event.isSpanOp]

/-- Witness of C2 on a context whose slot is absent and on one whose slot holds a
string. -/
theorem after_without_span_is_noop_witness :
    sampleFailed.InstanceGet gormSpanKey = none ∧
      (after sampleEnv sampleFailed []).1 = sampleFailed ∧
      spanOps (after sampleEnv sampleFailed []).2 = [] ∧
      sampleForeign.InstanceGet gormSpanKey = some (Value.str "not a span") ∧
      (after sampleEnv sampleForeign []).1 = sampleForeign ∧
      spanOps (after sampleEnv sampleForeign []).2 = [] :=
  ⟨by decide,
    (after_without_span_is_noop sampleEnv sampleFailed [] (Or.inl (by decide))).1,
    (after_without_span_is_noop sampleEnv sampleFailed [] (Or.inl (by decide))).2.2.1,
    by decide,
    (after_without_span_is_noop sampleEnv sampleForeign []
      (Or.inr ⟨Value.str "not a span", by decide, by decide⟩)).1,
    (after_without_span_is_noop sampleEnv sampleForeign []
      (Or.inr ⟨Value.str "not a span", by decide, by decide⟩)).2.2.1⟩

/-- Claim C3.  When the slot holds a span: with a non-nil error field `after` calls
`RecordError` on that span exactly once, with that error, and then `End` on
that span exactly once; with a nil error field it calls `RecordError` not at
all and `End` exactly once.  Either way the error field is returned as it
was. -/
theorem after_records_error_then_ends (env : Env) (db : DB) (log : List Event) (s : Span)
    (h : db.InstanceGet gormSpanKey = some (Value.span s)) :
    (∀ e, db.Error = some e →
        recordErrorCalls (after env db log).2 = recordErrorCalls log ++ [(s, e)] ∧
        endCalls (after env db log).2 = endCalls log ++ [s] ∧
        spanOps (after env db log).2 = spanOps log ++
          [Event.recordError s e [TraceOption.withTimestamp (env.timeNow log)],
           Event.spanEnd s (endOpts (env.timeNow log))]) ∧
      (db.Error = none →
        recordErrorCalls (after env db log).2 = recordErrorCalls log ∧
        endCalls (after env db log).2 = endCalls log ++ [s] ∧
        spanOps (after env db log).2 = spanOps log ++
          [Event.spanEnd s (endOpts (env.timeNow log))]) ∧
      (after env db log).1.Error = db.Error := by
  rw [after_of_span env db log s h]
  refine ⟨?_, ?_, rfl⟩
  · intro e he
    simp [he, recordErrorCalls_append, endCalls_append, spanOps_append,
      recordErrorCalls_closing, endCalls_closing, spanOps_closing]
  · intro he
    simp [he, recordErrorCalls_append, endCalls_append, spanOps_append,
      recordErrorCalls_closing, endCalls_closing, spanOps_closing]

/-- Witness of C3 on a failed operation whose slot holds span 5. -/
theorem after_records_error_then_ends_witness :
    sampleTraced.InstanceGet gormSpanKey = some (Value.span (Span.mk 5)) ∧
      recordErrorCalls (after sampleEnv sampleTraced []).2 =
        [(Span.mk 5, "constraint failed")] ∧
      endCalls (after sampleEnv sampleTraced []).2 = [Span.mk 5] ∧
      (after sampleEnv sampleTraced []).1.Error = some "constraint failed" :=
  ⟨by decide,
    ((after_records_error_then_ends sampleEnv sampleTraced [] (Span.mk 5) (by decide)).1
      "constraint failed" rfl).1,
    ((after_records_error_then_ends sampleEnv sampleTraced [] (Span.mk 5) (by decide)).1
      "constraint failed" rfl).2.1,
    (after_records_error_then_ends sampleEnv sampleTraced [] (Span.mk 5) (by decide)).2.2⟩

/-- Claim C4 (the code at the failing input).  After `before` and `after` on a
successful parameterised query, the span that was ended carries no attribute at
all: `after` builds the three attributes `args`, `sql` and `go.orm` in its local
slice and passes the slice to no span call. -/
theorem after_attaches_no_attributes :
    endCalls (after sampleEnv (before sampleEnv sampleQuery []).1
        (before sampleEnv sampleQuery []).2).2 = [Span.mk 0] ∧
      attributesOf (Span.mk 0) (after sampleEnv (before sampleEnv sampleQuery []).1
        (before sampleEnv sampleQuery []).2).2 = [] ∧
      spanOps (after sampleEnv (before sampleEnv sampleQuery []).1
        (before sampleEnv sampleQuery []).2).2 =
        [Event.spanEnd (Span.mk 0)
          [TraceOption.withStackTrace true, TraceOption.withTimestamp 1001]] ∧
      afterAttrs sampleEnv (before sampleEnv sampleQuery []).1 =
        [KeyValue.mk "args" "[42]",
         KeyValue.mk "sql" "SELECT * FROM users WHERE id = 42",
         KeyValue.mk "go.orm" "gorm"] := by
  decide

/-- Claim C5 (the code at the failing input).  After `before` the statement's
context is still the context it held on entry, not the context that
`Tracer.Start` returned for the new span. -/
theorem before_keeps_entry_context :
    (startSpan sampleEnv sampleQuery []).1.1 =
        Context.withValue Context.background "otel:span" (Value.span (Span.mk 0)) ∧
      (before sampleEnv sampleQuery []).1.Statement.Context = Context.background ∧
      (before sampleEnv sampleQuery []).1.Statement.Context ≠
        (startSpan sampleEnv sampleQuery []).1.1 := by
  decide

/-- Claim C6 as stated fails: the registrations `Initialize` issues do contain a
registration of `before` on the delete pipeline. -/
theorem initialize_registers_before_on_delete :
    registrationsOf Kind.delete Handler.before (issued acceptAll (Callbacks.mk [])) =
      [Registration.mk Kind.delete Position.before "gorm:before_delete" "gorm_tracer:before"
        Handler.before] := by
  decide

/-- Claim C6, amended.  On every registry and for every outcome of the
registrations, `Initialize` issues for each of the six kinds, delete included,
exactly one registration of `before`, under the name `gorm_tracer:before` and
placed before the stage the source names for that kind, and exactly one
registration of `after`, under the name `gorm_tracer:after` and placed after the
stage the source names for that kind.  In particular the delete pipeline gets
`before` placed before `gorm:before_delete` and `after` placed after
`gorm:after_delete`. -/
theorem initialize_registers_both_for_every_kind
    (outcome : List Registration → Registration → Option Err) (cb : Callbacks) (k : Kind) :
    registrationsOf k Handler.before (issued outcome cb) =
        [Registration.mk k Position.before
          (match k with
           | Kind.create => "gorm:before_create"
           | Kind.query => "gorm:query"
           | Kind.update => "gorm:setup_reflect_value"
           | Kind.delete => "gorm:before_delete"
           | Kind.row => "gorm:row"
           | Kind.raw => "gorm:raw")
          "gorm_tracer:before" Handler.before] ∧
      registrationsOf k Handler.after (issued outcome cb) =
        [Registration.mk k Position.after
          (match k with
           | Kind.create => "gorm:after_create"
           | Kind.query => "gorm:after_query"
           | Kind.update => "gorm:after_update"
           | Kind.delete => "gorm:after_delete"
           | Kind.row => "gorm:row"
           | Kind.raw => "gorm:raw")
          "gorm_tracer:after" Handler.after] ∧
      registrationsOf Kind.delete Handler.before (issued outcome cb) =
        [Registration.mk Kind.delete Position.before "gorm:before_delete"
          "gorm_tracer:before" Handler.before] ∧
      registrationsOf Kind.delete Handler.after (issued outcome cb) =
        [Registration.mk Kind.delete Position.after "gorm:after_delete"
          "gorm_tracer:after" Handler.after] := by
  rw [issued_eq]
  cases k <;> decide

/-- Claim C7.  Whatever the registry holds and whatever each `Register` call
returns, `Initialize` returns a nil error and attempts all twelve
registrations: the registry has received exactly twelve calls more, after the
ones made before. -/
theorem initialize_returns_nil (outcome : List Registration → Registration → Option Err)
    (cb : Callbacks) :
    (Initialize outcome cb).2 = none ∧
      (issued outcome cb).length = 12 ∧
      (Initialize outcome cb).1.attempts = cb.attempts ++ issued outcome cb ∧
      issued outcome cb = issued acceptAll (Callbacks.mk []) := by
  refine ⟨rfl, ?_, ?_, ?_⟩
  · rw [issued_eq]
    rfl
  · rw [issued_eq, initialize_attempts]
  · rw [issued_eq, issued_eq]

/-- Claim C8.  `before` makes exactly one `Tracer.Start` call: its parent context
is the statement's context on entry, its span name is the dialect's `Explain`
rendering of the SQL text with the bound values, its only option is the client
span kind.  The span returned is then found under `gorm_tracer:span` on the
operation context `before` returns. -/
theorem before_starts_client_span (env : Env) (db : DB) (log : List Event) :
    (before env db log).2 = log ++
        [Event.start db.Statement.Context
          (env.Explain db.Statement.SQL db.Statement.Vars)
          [TraceOption.withSpanKind SpanKind.client]
          (env.tracerStart log db.Statement.Context
            (env.Explain db.Statement.SQL db.Statement.Vars)
            [TraceOption.withSpanKind SpanKind.client]).1
          (env.tracerStart log db.Statement.Context
            (env.Explain db.Statement.SQL db.Statement.Vars)
            [TraceOption.withSpanKind SpanKind.client]).2] ∧
      startCalls (before env db log).2 = startCalls log ++
        [(env.tracerStart log db.Statement.Context
            (env.Explain db.Statement.SQL db.Statement.Vars)
            [TraceOption.withSpanKind SpanKind.client]).2] ∧
      (before env db log).1.InstanceGet gormSpanKey =
        some (Value.span (env.tracerStart log db.Statement.Context
            (env.Explain db.Statement.SQL db.Statement.Vars)
            [TraceOption.withSpanKind SpanKind.client]).2) := by
  refine ⟨rfl, ?_, before_slot env db log⟩
  rw [before_eq, startCalls_append]
  rfl

/-- Claim C9.  When the slot holds a span, `after` reads the clock exactly once, as
its first action; `End` is called with a stack-trace request and that
timestamp; `RecordError`, called when the error field is non-nil, gets the same
timestamp and comes before `End`. -/
theorem after_uses_one_timestamp (env : Env) (db : DB) (log : List Event) (s : Span)
    (h : db.InstanceGet gormSpanKey = some (Value.span s)) :
    (after env db log).2 = log ++
        ([Event.now (env.timeNow log)] ++
          (match db.Error with
           | some e => [Event.recordError s e [TraceOption.withTimestamp (env.timeNow log)]]
           | none => []) ++
          [Event.spanEnd s
            [TraceOption.withStackTrace true, TraceOption.withTimestamp (env.timeNow log)]]) ∧
      clockReads (after env db log).2 = clockReads log ++ [env.timeNow log] := by
  rw [after_of_span env db log s h]
  refine ⟨?_, ?_⟩
  · cases db.Error <;> simp [closing, endOpts]
  · simp only [clockReads_append, clockReads_closing]

/-- Witness of C9 on a failed operation whose slot holds span 5. -/
theorem after_uses_one_timestamp_witness :
    sampleTraced.InstanceGet gormSpanKey = some (Value.span (Span.mk 5)) ∧
      clockReads (after sampleEnv sampleTraced []).2 = [sampleEnv.timeNow []] :=
  ⟨by decide,
    (after_uses_one_timestamp sampleEnv sampleTraced [] (Span.mk 5) (by decide)).2⟩

/-- Claim C10.  `after` leaves the slot alone: when the slot holds a span it still
holds that span when `after` returns, a second `after` ends the same span a
second time, and any number `n` of consecutive `after` calls makes `n` calls of
`End` on it; in particular `n` calls of `after` following one `before` end the
span that `before` started `n` times. -/
theorem after_keeps_slot (env : Env) (db : DB) (log : List Event) (s : Span)
    (h : db.InstanceGet gormSpanKey = some (Value.span s)) :
    (after env db log).1.InstanceGet gormSpanKey = some (Value.span s) ∧
      endCalls (after env (after env db log).1 (after env db log).2).2 =
        endCalls log ++ [s, s] ∧
      (∀ n, endCalls (afterN env n db log).2 = endCalls log ++ List.replicate n s) ∧
      (∀ db0 log0 n,
        endCalls (afterN env n (before env db0 log0).1 (before env db0 log0).2).2 =
          endCalls log0 ++ List.replicate n (startSpan env db0 log0).1.2) := by
  have h1 : (after env db log).1 = db := by rw [after_of_span env db log s h]
  refine ⟨?_, ?_, ?_, ?_⟩
  · rw [h1]
    exact h
  · have h2 := (afterN_of_span env s 2 db log h).2
    simpa [afterN] using h2
  · intro n
    exact (afterN_of_span env s n db log h).2
  · intro db0 log0 n
    rw [(afterN_of_span env _ n _ _ (before_slot env db0 log0)).2, before_eq,
      endCalls_append]
    simp [endCalls]

/-- Witness of C10 on an operation whose slot holds span 5: three `after` calls end
span 5 three times. -/
theorem after_keeps_slot_witness :
    sampleTraced.InstanceGet gormSpanKey = some (Value.span (Span.mk 5)) ∧
      endCalls (afterN sampleEnv 3 sampleTraced []).2 =
        [] ++ List.replicate 3 (Span.mk 5) :=
  ⟨by decide,
    (after_keeps_slot sampleEnv sampleTraced [] (Span.mk 5) (by decide)).2.2.1 3⟩

end GormOtel
